import Mathlib

/-!
Shallow embedding of the request/response marshaling core of the
bitfield/uptimerobot client library, and proofs of the spec's claims about it.

The embedding models JSON documents as an inductive `Json` value (Go's
`encoding/json` parses into `map[string]interface{}`, modelled here as an
association list with Go-map update semantics: updating an existing key
replaces its value in place, a new key is appended).  All wire numbers that
occur in these code paths are integers, so `Json.num` carries an `Int`.
Field order in a Go map is not observable through the map API and every
claim observes objects only through key lookup, so the association list's
order is irrelevant to every theorem below.
-/

namespace UptimeRobot

/-- A JSON value.  Numbers are modelled as `Int`: every number that the
embedded code paths produce or consume is integral. -/
inductive Json where
  | null
  | bool (b : Bool)
  | num (n : Int)
  | str (s : String)
  | arr (elems : List Json)
  | obj (fields : List (String × Json))
deriving Repr

/-- Look a key up in a JSON object's field list (Go map indexing `raw[k]`;
`none` models Go's `nil` result for an absent key). -/
def lookupField : List (String × Json) → String → Option Json
  | [], _ => none
  | (k', v) :: rest, k => if k' = k then some v else lookupField rest k

/-- Go map assignment `raw[k] = v`: replace the value of an existing key,
append the key otherwise. -/
def setField : List (String × Json) → String → Json → List (String × Json)
  | [], k, v => [(k, v)]
  | (k', v') :: rest, k, v =>
      if k' = k then (k, v) :: rest else (k', v') :: setField rest k v

/-- Go's `strconv.Atoi`: an optional sign followed by at least one decimal
digit, value restricted to the 64-bit `int` range (out-of-range numerals
return `ErrRange`). -/
def goAtoiDigits : List Char → Nat → Option Nat
  | [], acc => some acc
  | c :: rest, acc =>
      if c.isDigit then goAtoiDigits rest (acc * 10 + (c.toNat - 48)) else none

def goAtoi (s : String) : Except String Int :=
  let cs := s.data
  let signed : Bool × List Char :=
    match cs with
    | '+' :: rest => (false, rest)
    | '-' :: rest => (true, rest)
    | _ => (false, cs)
  match goAtoiDigits signed.2 0 with
  | none => .error ("strconv.Atoi: parsing " ++ s ++ ": invalid syntax")
  | some n =>
      match signed.2 with
      | [] => .error ("strconv.Atoi: parsing " ++ s ++ ": invalid syntax")
      | _ =>
          let v : Int := if signed.1 then -(n : Int) else (n : Int)
          if v < -(2 ^ 63) ∨ 2 ^ 63 - 1 < v then
            .error ("strconv.Atoi: parsing " ++ s ++ ": value out of range")
          else
            .ok v

/-- The Monitor entity (src/cmd/monitors.go, `type Monitor struct`).  Go
types `int64`/`int`/`Status` (a defined `int` type) are all modelled as
`Int`; no code path embedded here overflows 64 bits. -/
structure Monitor where
  id : Int
  friendlyName : String
  url : String
  type : Int
  subType : Int
  keywordType : Int
  port : Int
  keywordValue : String
  alertContacts : List String
  status : Int
deriving Repr, DecidableEq

/-- The zero Monitor (Go's zero value). -/
def zeroMonitor : Monitor :=
  { id := 0, friendlyName := "", url := "", type := 0, subType := 0,
    keywordType := 0, port := 0, keywordValue := "", alertContacts := [],
    status := 0 }

/-- Embedding of `buildAlertContactList` (src/pkg/uptimerobot_test.go:1132): suffix each
contact ID with `_0_0` and join with `-`. -/
def buildAlertContactList (contactIDs : List String) : String :=
  String.intercalate "-" (contactIDs.map (fun c => c ++ "_0_0"))

/-- Stage one of `Monitor.MarshalJSON`: `json.Marshal` of the `MonitorAlias`
struct, one field per JSON tag, honouring `omitempty` (id, sub_type,
keyword_type, keyword_value, alert_contacts are omitted at their zero
values; friendly_name, url, type, port, status are always present). -/
def Monitor.aliasMarshal (m : Monitor) : List (String × Json) :=
  (if m.id = 0 then [] else [("id", Json.num m.id)]) ++
  [("friendly_name", Json.str m.friendlyName), ("url", Json.str m.url),
   ("type", Json.num m.type)] ++
  (if m.subType = 0 then [] else [("sub_type", Json.num m.subType)]) ++
  (if m.keywordType = 0 then [] else [("keyword_type", Json.num m.keywordType)]) ++
  [("port", Json.num m.port)] ++
  (if m.keywordValue = "" then [] else [("keyword_value", Json.str m.keywordValue)]) ++
  (if m.alertContacts = [] then []
   else [("alert_contacts", Json.arr (m.alertContacts.map Json.str))]) ++
  [("status", Json.num m.status)]

/-- Embedding of `Monitor.MarshalJSON` (src/cmd/monitors.go:163): marshal the alias
struct, reread it as a generic map, overwrite `alert_contacts` with the
delimited contact string, and marshal the map again.  The Go error returns
are unreachable for this struct shape (strings, integers and a string
slice always marshal), so the result is always `.ok`; the `Except` return
mirrors the Go signature `([]byte, error)`. -/
def Monitor.marshalJSON (m : Monitor) : Except String Json :=
  .ok (Json.obj (setField m.aliasMarshal "alert_contacts"
        (Json.str (buildAlertContactList m.alertContacts))))

/-- One pass of the cleanup loop body in `Monitor.UnmarshalJSON` for the
value found at one of the keys `sub_type`, `keyword_type`, `port`:
an empty string becomes the number zero, any other string goes through
`strconv.Atoi` (failure aborts the decode), everything else is left alone. -/
def normalizeField (v : Json) : Except String Json :=
  match v with
  | .str s =>
      if s = "" then .ok (Json.num 0)
      else
        match goAtoi s with
        | .ok n => .ok (Json.num n)
        | .error e => .error e
  | w => .ok w

/-- Apply `normalizeField` at one key of the raw map.  An absent key is left
untouched (in Go, `raw[f] == ""` is false for a `nil` interface and the
string type assertion fails). -/
def normalizeKey (fields : List (String × Json)) (k : String) :
    Except String (List (String × Json)) :=
  match lookupField fields k with
  | none => .ok fields
  | some v =>
      match normalizeField v with
      | .ok v' => .ok (setField fields k v')
      | .error e => .error e

/-- Go decode of an optional JSON value into a `string` struct field:
absent or `null` leaves the zero value, a string is taken verbatim,
anything else is a type error. -/
def decodeStr : Option Json → Except String String
  | none => .ok ""
  | some .null => .ok ""
  | some (.str s) => .ok s
  | some _ => .error "json: cannot unmarshal value into field of type string"

/-- Go decode of an optional JSON value into an integer struct field. -/
def decodeInt : Option Json → Except String Int
  | none => .ok 0
  | some .null => .ok 0
  | some (.num n) => .ok n
  | some _ => .error "json: cannot unmarshal value into field of type int"

def decodeStrElems : List Json → Except String (List String)
  | [] => .ok []
  | .str s :: rest => (decodeStrElems rest).map (fun l => s :: l)
  | _ :: _ => .error "json: cannot unmarshal value into field of type string"

/-- Go decode of an optional JSON value into a `[]string` struct field:
absent or `null` leaves the nil slice, an array must contain only strings,
anything else (in particular a string) is a type error. -/
def decodeStrList : Option Json → Except String (List String)
  | none => .ok []
  | some .null => .ok []
  | some (.arr xs) => decodeStrElems xs
  | some _ => .error "json: cannot unmarshal string into field of type list of string"

/-- The final `json.Unmarshal` of the cleaned-up map into `MonitorAlias`:
project each tagged field out of the object. -/
def Monitor.decodeFields (fields : List (String × Json)) : Except String Monitor := do
  let id ← decodeInt (lookupField fields "id")
  let fn ← decodeStr (lookupField fields "friendly_name")
  let url ← decodeStr (lookupField fields "url")
  let ty ← decodeInt (lookupField fields "type")
  let st ← decodeInt (lookupField fields "sub_type")
  let kt ← decodeInt (lookupField fields "keyword_type")
  let port ← decodeInt (lookupField fields "port")
  let kv ← decodeStr (lookupField fields "keyword_value")
  let ac ← decodeStrList (lookupField fields "alert_contacts")
  let status ← decodeInt (lookupField fields "status")
  .ok { id := id, friendlyName := fn, url := url, type := ty, subType := st,
        keywordType := kt, port := port, keywordValue := kv,
        alertContacts := ac, status := status }

/-- Embedding of `Monitor.UnmarshalJSON` (src/cmd/monitors.go:194): read the payload into
a generic map, normalize `sub_type`, `keyword_type` and `port` in that
order, then decode the cleaned-up map into the strict struct.  A JSON
`null` payload leaves the zero Monitor (Go round-trips `null` through the
nil map without error); any other non-object payload is a decode error. -/
def Monitor.unmarshalJSON (j : Json) : Except String Monitor :=
  match j with
  | .null => .ok zeroMonitor
  | .obj fields => do
      let f1 ← normalizeKey fields "sub_type"
      let f2 ← normalizeKey f1 "keyword_type"
      let f3 ← normalizeKey f2 "port"
      Monitor.decodeFields f3
  | _ => .error "json: cannot unmarshal value into map"

/-- Decode-of-encode composition, the subject of the round-trip claim. -/
def Monitor.roundTrip (m : Monitor) : Except String Monitor :=
  (Monitor.marshalJSON m).bind Monitor.unmarshalJSON

/-- Embedding of `Account` (src/pkg/account.go). -/
structure Account where
  email : String
  monitorLimit : Int
  monitorInterval : Int
  upMonitors : Int
  downMonitors : Int
  pausedMonitors : Int
deriving Repr, DecidableEq

def zeroAccount : Account :=
  { email := "", monitorLimit := 0, monitorInterval := 0, upMonitors := 0,
    downMonitors := 0, pausedMonitors := 0 }

def Account.decodeFields (fields : List (String × Json)) : Except String Account := do
  let email ← decodeStr (lookupField fields "email")
  let ml ← decodeInt (lookupField fields "monitor_limit")
  let mi ← decodeInt (lookupField fields "monitor_interval")
  let up ← decodeInt (lookupField fields "up_monitors")
  let down ← decodeInt (lookupField fields "down_monitors")
  let paused ← decodeInt (lookupField fields "paused_monitors")
  .ok { email := email, monitorLimit := ml, monitorInterval := mi,
        upMonitors := up, downMonitors := down, pausedMonitors := paused }

def Account.decode : Option Json → Except String Account
  | none => .ok zeroAccount
  | some .null => .ok zeroAccount
  | some (.obj fields) => Account.decodeFields fields
  | some _ => .error "json: cannot unmarshal value into field of type Account"

/-- Embedding of `AlertContact` (src/pkg/uptimerobot.go:126). -/
structure AlertContact where
  id : String
  friendlyName : String
  type : Int
  status : Int
  value : String
deriving Repr, DecidableEq

def AlertContact.decodeFields (fields : List (String × Json)) :
    Except String AlertContact := do
  let id ← decodeStr (lookupField fields "id")
  let fn ← decodeStr (lookupField fields "friendly_name")
  let ty ← decodeInt (lookupField fields "type")
  let st ← decodeInt (lookupField fields "status")
  let v ← decodeStr (lookupField fields "value")
  .ok { id := id, friendlyName := fn, type := ty, status := st, value := v }

def decodeAlertContacts : List Json → Except String (List AlertContact)
  | [] => .ok []
  | .obj fields :: rest => do
      let a ← AlertContact.decodeFields fields
      let l ← decodeAlertContacts rest
      .ok (a :: l)
  | .null :: rest => do
      let l ← decodeAlertContacts rest
      .ok ({ id := "", friendlyName := "", type := 0, status := 0, value := "" } :: l)
  | _ :: _ => .error "json: cannot unmarshal value into field of type AlertContact"

def decodeAlertContactList : Option Json → Except String (List AlertContact)
  | none => .ok []
  | some .null => .ok []
  | some (.arr xs) => decodeAlertContacts xs
  | some _ => .error "json: cannot unmarshal value into field of type list of AlertContact"

/-- Embedding of `Pagination` (src/pkg/uptimerobot_integration_test.go:124). -/
structure Pagination where
  offset : Int
  limit : Int
  total : Int
deriving Repr, DecidableEq

def zeroPagination : Pagination := { offset := 0, limit := 0, total := 0 }

def Pagination.decodeFields (fields : List (String × Json)) :
    Except String Pagination := do
  let off ← decodeInt (lookupField fields "offset")
  let lim ← decodeInt (lookupField fields "limit")
  let tot ← decodeInt (lookupField fields "total")
  .ok { offset := off, limit := lim, total := tot }

def Pagination.decode : Option Json → Except String Pagination
  | none => .ok zeroPagination
  | some .null => .ok zeroPagination
  | some (.obj fields) => Pagination.decodeFields fields
  | some _ => .error "json: cannot unmarshal value into field of type Pagination"

/-- The free-form error payload (`type Error map[string]interface{}`):
`none` is Go's nil map (absent or `null` on the wire). -/
def ErrorPayload := Option (List (String × Json))

def decodeErrorPayload : Option Json → Except String ErrorPayload
  | none => .ok (none : Option (List (String × Json)))
  | some .null => .ok (none : Option (List (String × Json)))
  | some (.obj fields) => .ok (some fields)
  | some _ => .error "json: cannot unmarshal value into field of type Error"

/-- The response envelope (src/pkg/uptimerobot_integration_test.go:131). -/
structure Response where
  stat : String
  account : Account
  monitors : List Monitor
  monitor : Monitor
  alertContacts : List AlertContact
  error : ErrorPayload
  pagination : Pagination

def zeroResponse : Response :=
  { stat := "", account := zeroAccount, monitors := [], monitor := zeroMonitor,
    alertContacts := [], error := (none : Option (List (String × Json))),
    pagination := zeroPagination }

def decodeMonitorElems : List Json → Except String (List Monitor)
  | [] => .ok []
  | j :: rest => do
      let m ← Monitor.unmarshalJSON j
      let l ← decodeMonitorElems rest
      .ok (m :: l)

def decodeMonitorList : Option Json → Except String (List Monitor)
  | none => .ok []
  | some .null => .ok []
  | some (.arr xs) => decodeMonitorElems xs
  | some _ => .error "json: cannot unmarshal value into field of type list of Monitor"

def decodeMonitorField : Option Json → Except String Monitor
  | none => .ok zeroMonitor
  | some j => Monitor.unmarshalJSON j

/-- Embedding of `json.Decode` of a response body into `Response`: the monitor-bearing
fields go through the custom `Monitor.UnmarshalJSON`, the rest are plain
struct projections.  A JSON `null` body leaves the zero Response; any other
non-object body is a decode error. -/
def Response.decode (j : Json) : Except String Response :=
  match j with
  | .null => .ok zeroResponse
  | .obj fields => do
      let stat ← decodeStr (lookupField fields "stat")
      let account ← Account.decode (lookupField fields "account")
      let monitors ← decodeMonitorList (lookupField fields "monitors")
      let monitor ← decodeMonitorField (lookupField fields "monitor")
      let contacts ← decodeAlertContactList (lookupField fields "alert_contacts")
      let error ← decodeErrorPayload (lookupField fields "error")
      let pagination ← Pagination.decode (lookupField fields "pagination")
      .ok { stat := stat, account := account, monitors := monitors,
            monitor := monitor, alertContacts := contacts, error := error,
            pagination := pagination }
  | _ => .error "json: cannot unmarshal value into Response"

/-- The caller-supplied request data handed to `decorateRequestData` as
`[]byte`: empty, bytes that do not parse into a JSON object (split into
the not-JSON-at-all and the wrong-JSON-type cases), or a parsed object.
A JSON `null` input is not modelled: on it the Go code panics (assignment
to a nil map) rather than returning, and no claim reaches it. -/
inductive RequestData where
  | empty
  | malformed
  | nonObject
  | object (fields : List (String × Json))

/-- Embedding of `decorateRequestData` (src/pkg/uptimerobot_integration_test.go:342):
parse the caller's data into a fresh map (skipped when empty), overwrite
`api_key` and `format`, and marshal the map back out.  The caller's data
is read, never written. -/
def decorateRequestData (data : RequestData) (apiKey : String) :
    Except String (List (String × Json)) :=
  match data with
  | .malformed => .error "unmarshaling request data"
  | .nonObject => .error "unmarshaling request data"
  | .empty =>
      .ok (setField (setField [] "api_key" (Json.str apiKey)) "format" (Json.str "json"))
  | .object fields =>
      .ok (setField (setField fields "api_key" (Json.str apiKey)) "format" (Json.str "json"))

/-- A response body as read off the socket: either bytes that fail to parse
as JSON, or a parsed JSON document. -/
inductive Body where
  | malformed (raw : String)
  | wellFormed (j : Json)

/-- The outcome of the one network exchange `MakeAPICall` performs:
either `http.Client.Do` fails (DNS, TLS, timeout), or a status code and a
body come back. -/
inductive HTTPOutcome where
  | failure (msg : String)
  | response (status : Nat) (body : Body)

/-- The distinct error returns of `MakeAPICall`, one constructor per
`return fmt.Errorf(...)` site (the sites are distinguishable by their
message prefixes). -/
inductive CallError where
  | decorateError (msg : String)
  | transportFailure (msg : String)
  | badStatus (status : Nat)
  | decodeError (msg : String)
  | apiError (payload : ErrorPayload)

/-- The spec's `TransportError` class: a transport-level failure, a
rejected HTTP status, or an unparseable body. -/
def CallError.isTransport : CallError → Bool
  | .transportFailure _ => true
  | .badStatus _ => true
  | .decodeError _ => true
  | _ => false

/-- Embedding of `MakeAPICall` (src/pkg/uptimerobot_integration_test.go:288): decorate
the request data, perform one exchange, reject a non-200 status, decode the
body into the envelope, and reject a body whose `stat` is not `"ok"`.
On success the decoded envelope (the filled-in `*Response`) is returned. -/
def MakeAPICall (data : RequestData) (apiKey : String) (outcome : HTTPOutcome) :
    Except CallError Response :=
  match decorateRequestData data apiKey with
  | .error e => .error (.decorateError e)
  | .ok _ =>
      match outcome with
      | .failure msg => .error (.transportFailure msg)
      | .response status body =>
          if status ≠ 200 then .error (.badStatus status)
          else
            match body with
            | .malformed raw => .error (.decodeError ("decoding error for " ++ raw))
            | .wellFormed j =>
                match Response.decode j with
                | .error e => .error (.decodeError e)
                | .ok r => if r.stat ≠ "ok" then .error (.apiError r.error) else .ok r

/-- The errors `GetMonitor` can return: a propagated `MakeAPICall` error, or
the locally produced `fmt.Errorf("monitor %d not found", ID)`. -/
inductive GetMonitorError where
  | call (e : CallError)
  | notFound (id : Int)

/-- Embedding of `GetMonitor` (src/pkg/uptimerobot_integration_test.go:152): call
`getMonitors` filtered to the one ID (`{"monitors": "<id>"}`), report
not-found locally when the returned list is empty, and return the first
element otherwise. -/
def getMonitor (id : Int) (apiKey : String) (outcome : HTTPOutcome) :
    Except GetMonitorError Monitor :=
  match MakeAPICall (RequestData.object [("monitors", Json.str (toString id))])
      apiKey outcome with
  | .error e => .error (.call e)
  | .ok r =>
      match r.monitors with
      | [] => .error (.notFound id)
      | m :: _ => .ok m

/-- Embedding of `SearchMonitors` (src/pkg/uptimerobot_integration_test.go:199): call
`getMonitors` with the free-text filter `{"search": "<s>"}`. -/
def searchMonitors (apiKey : String) (outcome : HTTPOutcome) (s : String) :
    Except CallError (List Monitor) :=
  match MakeAPICall (RequestData.object [("search", Json.str s)]) apiKey outcome with
  | .error e => .error e
  | .ok r => .ok r.monitors

/-- Embedding of `CreateMonitor` (src/pkg/uptimerobot_integration_test.go:220): encode
the monitor, call `newMonitor`, and return the ID of the echoed monitor. -/
def createMonitor (apiKey : String) (outcome : HTTPOutcome) (m : Monitor) :
    Except CallError Int :=
  match Monitor.marshalJSON m with
  | .error _ => .error (.decorateError "marshal")
  | .ok (Json.obj fields) =>
      match MakeAPICall (RequestData.object fields) apiKey outcome with
      | .error e => .error e
      | .ok r => .ok r.monitor.id
  | .ok _ =>
      match MakeAPICall RequestData.nonObject apiKey outcome with
      | .error e => .error e
      | .ok r => .ok r.monitor.id

/-- Embedding of `EnsureMonitor` (src/pkg/uptimerobot_integration_test.go:236): search by
the monitor's URL; a failed search aborts, a non-empty result returns the
first match's ID without creating, an empty result creates and returns the
new ID.  The two network exchanges the operation can make are supplied as
`searchNet` and `createNet`; the second component of the result counts how
many times `CreateMonitor` was invoked. -/
def ensureMonitor (apiKey : String) (searchNet createNet : HTTPOutcome)
    (m : Monitor) : Except CallError Int × Nat :=
  match searchMonitors apiKey searchNet m.url with
  | .error e => (.error e, 0)
  | .ok monitors =>
      match monitors with
      | [] =>
          match createMonitor apiKey createNet m with
          | .error e => (.error e, 1)
          | .ok id => (.ok id, 1)
      | first :: _ => (.ok first.id, 0)

/-- The request body `AllMonitors` sends for one page
(`Params{"offset": strconv.Itoa(offset), "limit": strconv.Itoa(limit)}`). -/
def pageRequest (offset limit : Int) : RequestData :=
  RequestData.object
    [("offset", Json.str (toString offset)), ("limit", Json.str (toString limit))]

/-- What one run of `AllMonitors` returns and did: the accumulated monitors,
the function's `err` result (`none` is Go's nil error), and the offsets of
the page requests it issued, in order. -/
structure AllMonitorsRun where
  monitors : List Monitor
  err : ErrorPayload
  requestOffsets : List Int

/-- The `for` loop of `AllMonitors` (src/pkg/uptimerobot_integration_test.go:166).
`net` maps each requested offset to that exchange's outcome.  Three source
details matter and are transcribed exactly:
the `if err := c.MakeAPICall(...); err != nil { break }` statement declares
a new `err` shadowing the named result, so a failed page call breaks out
with the OUTER `err` still nil; the monitors of a page are appended before
the `r.Error != nil` check; and the loop continues only while
`offset+limit < total` after setting `offset = r.Pagination.Offset + limit`.
The source's local `limit` variable is the constant 50 and is inlined.
The Go loop is unbounded, so the recursion carries fuel; every theorem
below holds for all sufficiently large fuel. -/
def allMonitorsLoop (apiKey : String) (net : Int → HTTPOutcome) :
    Nat → Int → List Monitor → List Int → AllMonitorsRun
  | 0, _, acc, reqs => { monitors := acc, err := none, requestOffsets := reqs }
  | fuel + 1, offset, acc, reqs =>
      match MakeAPICall (pageRequest offset 50) apiKey (net offset) with
      | .error _ =>
          { monitors := acc, err := none, requestOffsets := reqs ++ [offset] }
      | .ok r =>
          match r.error with
          | some payload =>
              { monitors := acc ++ r.monitors, err := some payload,
                requestOffsets := reqs ++ [offset] }
          | none =>
              if r.pagination.offset + 50 + 50 < r.pagination.total then
                allMonitorsLoop apiKey net fuel (r.pagination.offset + 50)
                  (acc ++ r.monitors) (reqs ++ [offset])
              else
                { monitors := acc ++ r.monitors, err := none,
                  requestOffsets := reqs ++ [offset] }

/-- Embedding of `AllMonitors`: run the pagination loop from offset 0. -/
def allMonitors (apiKey : String) (net : Int → HTTPOutcome) (fuel : Nat) :
    AllMonitorsRun :=
  allMonitorsLoop apiKey net fuel 0 [] []

/-- What the historical Debug-flag `MakeAPICall` returns and did: its error
result (`none` is success), whether it performed the network exchange, and
whether it rendered the outgoing request to the debug output. -/
structure HistCallRun where
  err : Option String
  networkCalled : Bool
  dumpedRequest : Bool
deriving Repr, DecidableEq

/-- The historical `MakeAPICall` variant with `Debug bool`
(src/pkg/uptimerobot_test.go:1321): when the Debug flag is set it dumps the
outgoing request and returns nil before `c.http.Do`, so the real call never
happens.  (The `httputil.DumpRequestOut` error return cannot fire for a
request built over a `strings.Reader` body, so the dump is modelled as
always succeeding.)  The non-debug path decodes the body and checks the
status tag as in the later versions; this snapshot has no HTTP status-code
check.  Only the `stat` check of the decoded body matters to any claim, so
the body is decoded with the envelope decoder defined above. -/
def makeAPICallDebug (debug : Bool) (outcome : HTTPOutcome) : HistCallRun :=
  if debug then
    { err := none, networkCalled := false, dumpedRequest := true }
  else
    match outcome with
    | .failure msg =>
        { err := some ("HTTP request failed: " ++ msg), networkCalled := true,
          dumpedRequest := false }
    | .response _ body =>
        match body with
        | .malformed _ =>
            { err := some "decoding error", networkCalled := true,
              dumpedRequest := false }
        | .wellFormed j =>
            match Response.decode j with
            | .error e =>
                { err := some ("decoding error: " ++ e), networkCalled := true,
                  dumpedRequest := false }
            | .ok r =>
                if r.stat ≠ "ok" then
                  { err := some "API error", networkCalled := true,
                    dumpedRequest := false }
                else
                  { err := none, networkCalled := true, dumpedRequest := false }

/-! Concrete fixtures used by witnesses and counterexamples. -/

/-- A concrete Monitor with a non-empty alert-contacts list and numeric
subtype, keyword type and port. -/
def c3Mon : Monitor :=
  { id := 777749809, friendlyName := "Google", url := "http://www.google.com",
    type := 4, subType := 1, keywordType := 1, port := 80,
    keywordValue := "hello", alertContacts := ["3", "5", "7"], status := 2 }

/-- The fixed fields of a well-formed monitor wire payload. -/
def monPayloadBase : List (String × Json) :=
  [("id", Json.num 77), ("friendly_name", Json.str "Google"),
   ("url", Json.str "http://example.com"), ("type", Json.num 1),
   ("status", Json.num 2)]

/-- A monitor wire payload: the fixed fields plus any representation of the
three leniently decoded fields. -/
def monPayload (extra : List (String × Json)) : Json :=
  Json.obj (monPayloadBase ++ extra)

/-- The Monitor that `monPayload` decodes to, as a function of the decoded
values of the three lenient fields. -/
def monPayloadMonitor (st kt port : Int) : Monitor :=
  { id := 77, friendlyName := "Google", url := "http://example.com", type := 1,
    subType := st, keywordType := kt, port := port, keywordValue := "",
    alertContacts := [], status := 2 }

/-- Wire form of a minimal monitor entry inside a listing page. -/
def pageMonJson (i : Int) : Json :=
  Json.obj [("id", Json.num i), ("friendly_name", Json.str ("monitor-" ++ toString i)),
            ("url", Json.str "http://example.com"), ("type", Json.num 1),
            ("status", Json.num 2)]

/-- The Monitor `pageMonJson i` decodes to. -/
def pageMon (i : Int) : Monitor :=
  { id := i, friendlyName := "monitor-" ++ toString i, url := "http://example.com",
    type := 1, subType := 0, keywordType := 0, port := 0, keywordValue := "",
    alertContacts := [], status := 2 }

/-- A listing page body carrying two monitors and the given pagination
metadata. -/
def pageBody (i j off total : Int) : Json :=
  Json.obj [("stat", Json.str "ok"),
            ("monitors", Json.arr [pageMonJson i, pageMonJson j]),
            ("pagination", Json.obj [("offset", Json.num off), ("limit", Json.num 50),
                                     ("total", Json.num total)])]

/-- The Response `pageBody i j off total` decodes to. -/
def pageResponse (i j off total : Int) : Response :=
  { stat := "ok", account := zeroAccount, monitors := [pageMon i, pageMon j],
    monitor := zeroMonitor, alertContacts := [],
    error := (none : Option (List (String × Json))),
    pagination := { offset := off, limit := 50, total := total } }

/-- Mock listing backend for the completeness scenario: every page reports
`total = 100` in pages of (up to) 50, first page at offset 0. -/
def c1Net : Int → HTTPOutcome := fun off =>
  if off = 0 then .response 200 (.wellFormed (pageBody 1 2 0 100))
  else .response 200 (.wellFormed (pageBody 51 52 off 100))

/-- Mock listing backend for the partial-failure scenario: the first page
reports `total = 150` so a second page is requested, and every later
request fails at the transport level. -/
def c2Net : Int → HTTPOutcome := fun off =>
  if off = 0 then .response 200 (.wellFormed (pageBody 1 2 0 150))
  else .failure "connection refused"

/-- A search/listing response body carrying one monitor. -/
def oneMonitorBody (i : Int) : Json :=
  Json.obj [("stat", Json.str "ok"), ("monitors", Json.arr [pageMonJson i])]

/-- A search/listing response body carrying no monitors. -/
def emptyMonitorsBody : Json :=
  Json.obj [("stat", Json.str "ok"), ("monitors", Json.arr [])]

/-- A `newMonitor` response body echoing the created monitor's ID. -/
def createdBody (i : Int) : Json :=
  Json.obj [("stat", Json.str "ok"), ("monitor", Json.obj [("id", Json.num i)])]

/-- A failure-tagged response body with an error payload. -/
def apiErrorBody : Json :=
  Json.obj [("stat", Json.str "fail"),
            ("error", Json.obj [("type", Json.str "invalid_parameter")])]

/-- The Response `apiErrorBody` decodes to. -/
def apiErrorResponse : Response :=
  { stat := "fail", account := zeroAccount, monitors := [], monitor := zeroMonitor,
    alertContacts := [], error := some [("type", Json.str "invalid_parameter")],
    pagination := zeroPagination }

/-- The Response `emptyMonitorsBody` decodes to. -/
def emptyMonitorsResponse : Response :=
  { stat := "ok", account := zeroAccount, monitors := [], monitor := zeroMonitor,
    alertContacts := [], error := (none : Option (List (String × Json))),
    pagination := zeroPagination }

/-- A concrete monitor handed to `EnsureMonitor`. -/
def ensureMon : Monitor :=
  { id := 0, friendlyName := "My test monitor", url := "http://example.com",
    type := 1, subType := 0, keywordType := 0, port := 0, keywordValue := "",
    alertContacts := [], status := 0 }

/-- Search exchange that finds one existing monitor (id 42). -/
def searchHitNet : HTTPOutcome := .response 200 (.wellFormed (oneMonitorBody 42))

/-- Search exchange that finds nothing. -/
def searchEmptyNet : HTTPOutcome := .response 200 (.wellFormed emptyMonitorsBody)

/-- Create exchange that echoes the new monitor's id 777810874. -/
def createOkNet : HTTPOutcome := .response 200 (.wellFormed (createdBody 777810874))

/-! Helper lemmas about the object-map operations. -/

theorem lookupField_setField_self (fs : List (String × Json)) (k : String) (v : Json) :
    lookupField (setField fs k v) k = some v := by
  induction fs with
  | nil => simp [setField, lookupField]
  | cons hd tl ih =>
      obtain ⟨k', v'⟩ := hd
      by_cases h : k' = k
      · simp [setField, h, lookupField]
      · simp [setField, h, lookupField, ih]

theorem lookupField_setField_ne (fs : List (String × Json)) (k k' : String) (v : Json)
    (h : k' ≠ k) : lookupField (setField fs k' v) k = lookupField fs k := by
  induction fs with
  | nil => simp [setField, lookupField, h]
  | cons hd tl ih =>
      obtain ⟨k₀, v₀⟩ := hd
      by_cases h0 : k₀ = k'
      · subst h0
        simp [setField, lookupField, h]
      · simp only [setField, if_neg h0, lookupField]
        by_cases hk : k₀ = k
        · simp [hk]
        · simp [hk, ih]

theorem lookupField_normalizeKey_ne (fs fs' : List (String × Json)) (j k : String)
    (h : normalizeKey fs j = .ok fs') (hjk : j ≠ k) :
    lookupField fs' k = lookupField fs k := by
  unfold normalizeKey at h
  cases hl : lookupField fs j with
  | none =>
      rw [hl] at h
      injection h with h
      rw [← h]
  | some v =>
      rw [hl] at h
      cases hn : normalizeField v with
      | ok v' =>
          simp only [hn] at h
          injection h with h
          rw [← h]
          exact lookupField_setField_ne fs k j v' hjk
      | error e =>
          simp only [hn] at h
          cases h

theorem decodeFields_error_of_contacts_str (fields : List (String × Json)) (s : String)
    (h : lookupField fields "alert_contacts" = some (Json.str s)) :
    ∃ e, Monitor.decodeFields fields = .error e := by
  unfold Monitor.decodeFields
  cases h1 : decodeInt (lookupField fields "id") with
  | error e => exact ⟨e, by simp [h1, Bind.bind, Except.bind]⟩
  | ok v1 =>
  cases h2 : decodeStr (lookupField fields "friendly_name") with
  | error e => exact ⟨e, by simp [h1, h2, Bind.bind, Except.bind]⟩
  | ok v2 =>
  cases h3 : decodeStr (lookupField fields "url") with
  | error e => exact ⟨e, by simp [h1, h2, h3, Bind.bind, Except.bind]⟩
  | ok v3 =>
  cases h4 : decodeInt (lookupField fields "type") with
  | error e => exact ⟨e, by simp [h1, h2, h3, h4, Bind.bind, Except.bind]⟩
  | ok v4 =>
  cases h5 : decodeInt (lookupField fields "sub_type") with
  | error e => exact ⟨e, by simp [h1, h2, h3, h4, h5, Bind.bind, Except.bind]⟩
  | ok v5 =>
  cases h6 : decodeInt (lookupField fields "keyword_type") with
  | error e => exact ⟨e, by simp [h1, h2, h3, h4, h5, h6, Bind.bind, Except.bind]⟩
  | ok v6 =>
  cases h7 : decodeInt (lookupField fields "port") with
  | error e => exact ⟨e, by simp [h1, h2, h3, h4, h5, h6, h7, Bind.bind, Except.bind]⟩
  | ok v7 =>
  cases h8 : decodeStr (lookupField fields "keyword_value") with
  | error e => exact ⟨e, by simp [h1, h2, h3, h4, h5, h6, h7, h8, Bind.bind, Except.bind]⟩
  | ok v8 =>
      refine ⟨"json: cannot unmarshal string into field of type list of string", ?_⟩
      simp [h1, h2, h3, h4, h5, h6, h7, h8, h, decodeStrList, Bind.bind, Except.bind]

/-- C3 (amended): for every Monitor with a non-empty alert-contacts list
(and numeric subtype, keyword type and port, which all in-memory Monitors
have), decoding the bytes produced by encoding it FAILS with an error: the
encoder rewrites `alert_contacts` into a single delimited string, which the
decoder cannot read back into the list-valued `alert_contacts` field. -/
theorem monitor_roundTrip_fails (m : Monitor) (h : m.alertContacts ≠ []) :
    ∃ e, Monitor.roundTrip m = .error e := by
  clear h
  unfold Monitor.roundTrip Monitor.marshalJSON
  simp only [Except.bind]
  have hac0 : lookupField
      (setField m.aliasMarshal "alert_contacts"
        (Json.str (buildAlertContactList m.alertContacts))) "alert_contacts" =
      some (Json.str (buildAlertContactList m.alertContacts)) :=
    lookupField_setField_self _ _ _
  generalize hfs : setField m.aliasMarshal "alert_contacts"
      (Json.str (buildAlertContactList m.alertContacts)) = fs0 at hac0
  unfold Monitor.unmarshalJSON
  cases hn1 : normalizeKey fs0 "sub_type" with
  | error e => exact ⟨e, by simp [hn1, Bind.bind, Except.bind]⟩
  | ok f1 =>
  cases hn2 : normalizeKey f1 "keyword_type" with
  | error e => exact ⟨e, by simp [hn1, hn2, Bind.bind, Except.bind]⟩
  | ok f2 =>
  cases hn3 : normalizeKey f2 "port" with
  | error e => exact ⟨e, by simp [hn1, hn2, hn3, Bind.bind, Except.bind]⟩
  | ok f3 =>
      have hac3 : lookupField f3 "alert_contacts" =
          some (Json.str (buildAlertContactList m.alertContacts)) := by
        rw [lookupField_normalizeKey_ne f2 f3 _ _ hn3 (by decide),
            lookupField_normalizeKey_ne f1 f2 _ _ hn2 (by decide),
            lookupField_normalizeKey_ne fs0 f1 _ _ hn1 (by decide), hac0]
      obtain ⟨e, he⟩ := decodeFields_error_of_contacts_str f3 _ hac3
      exact ⟨e, by simp [hn1, hn2, hn3, he, Bind.bind, Except.bind]⟩

/-- C3 counterexample: at a concrete Monitor with alert contacts
`["3","5","7"]` and numeric subtype/keyword-type/port, decode-of-encode
does not succeed (so in particular it does not reconstruct the monitor):
it returns the `[]string` type-mismatch error. -/
theorem monitor_roundTrip_counterexample :
    Monitor.roundTrip c3Mon =
      .error "json: cannot unmarshal string into field of type list of string" := by
  rfl

/-- C3 witness: the amended theorem applied at the concrete monitor. -/
theorem monitor_roundTrip_fails_witness :
    c3Mon.alertContacts ≠ [] ∧ ∃ e, Monitor.roundTrip c3Mon = .error e :=
  ⟨by decide, monitor_roundTrip_fails c3Mon (by decide)⟩

/-- C4: encoding a Monitor never fails, the encoded `alert_contacts` field
is always the contact IDs suffixed with `_0_0` and joined with `-`, and on
the contact lists `["3","5","7"]` and `["2353888","0132759"]` that string
is exactly `"3_0_0-5_0_0-7_0_0"` resp. `"2353888_0_0-0132759_0_0"`. -/
theorem marshal_total_and_contact_encoding :
    (∀ m : Monitor, ∃ fields, Monitor.marshalJSON m = .ok (Json.obj fields) ∧
        lookupField fields "alert_contacts" =
          some (Json.str (buildAlertContactList m.alertContacts))) ∧
    buildAlertContactList ["3", "5", "7"] = "3_0_0-5_0_0-7_0_0" ∧
    buildAlertContactList ["2353888", "0132759"] = "2353888_0_0-0132759_0_0" :=
  ⟨fun m => ⟨_, rfl, lookupField_setField_self _ _ _⟩, rfl, rfl⟩

/-- C5: decoding normalizes `sub_type`, `keyword_type` and `port`: an
empty-string value decodes to zero without error; a numeric string (one
`strconv.Atoi` accepts) decodes to that integer; a non-numeric non-empty
string aborts the decode with the parse error; and an absent field never
causes failure and defaults to zero. -/
theorem unmarshal_lenient_fields :
    (Monitor.unmarshalJSON (monPayload
        [("sub_type", Json.str ""), ("keyword_type", Json.str ""), ("port", Json.str "")]) =
      .ok (monPayloadMonitor 0 0 0)) ∧
    (∀ s n, goAtoi s = .ok n →
      Monitor.unmarshalJSON (monPayload
        [("sub_type", Json.str s), ("keyword_type", Json.str s), ("port", Json.str s)]) =
        .ok (monPayloadMonitor n n n)) ∧
    (∀ s e, goAtoi s = .error e → s ≠ "" →
      Monitor.unmarshalJSON (monPayload [("sub_type", Json.str s)]) = .error e) ∧
    (Monitor.unmarshalJSON (monPayload []) = .ok (monPayloadMonitor 0 0 0)) := by
  refine ⟨rfl, ?_, ?_, rfl⟩
  · intro s n h
    by_cases hs : s = ""
    · subst hs
      have hempty : goAtoi "" = Except.error "strconv.Atoi: parsing : invalid syntax" := rfl
      rw [hempty] at h
      cases h
    · simp [Monitor.unmarshalJSON, monPayload, monPayloadBase, normalizeKey,
            normalizeField, lookupField, setField, hs, h, Monitor.decodeFields,
            decodeInt, decodeStr, decodeStrList, Bind.bind, Except.bind,
            monPayloadMonitor]
  · intro s e herr hs
    simp [Monitor.unmarshalJSON, monPayload, monPayloadBase, normalizeKey,
          normalizeField, lookupField, setField, hs, herr, Bind.bind, Except.bind]

/-- C5 witness: the lenient-decoding theorem instantiated at the numeric
string `"8080"` and the non-numeric string `"zz"`. -/
theorem unmarshal_lenient_fields_witness :
    (Monitor.unmarshalJSON (monPayload
        [("sub_type", Json.str "8080"), ("keyword_type", Json.str "8080"),
         ("port", Json.str "8080")]) = .ok (monPayloadMonitor 8080 8080 8080)) ∧
    (Monitor.unmarshalJSON (monPayload [("sub_type", Json.str "zz")]) =
      .error "strconv.Atoi: parsing zz: invalid syntax") :=
  ⟨unmarshal_lenient_fields.2.1 "8080" 8080 rfl,
   unmarshal_lenient_fields.2.2.1 "zz" _ rfl (by decide)⟩

/-- C6: `MakeAPICall` classifies outcomes: a transport-level failure, a
non-2xx status, and an unparseable body each yield a transport-class
error; a 200 response whose well-formed body carries `stat ≠ "ok"` yields
an API error carrying the service's error payload; and the call returns
success (handing the response to the caller) only when the body is
well-formed and success-tagged. -/
theorem makeAPICall_classification :
    (∀ data apiKey msg out, decorateRequestData data apiKey = .ok out →
        MakeAPICall data apiKey (.failure msg) = .error (.transportFailure msg) ∧
        (CallError.transportFailure msg).isTransport = true) ∧
    (∀ data apiKey status body out, decorateRequestData data apiKey = .ok out →
        status < 200 ∨ 300 ≤ status →
        MakeAPICall data apiKey (.response status body) = .error (.badStatus status) ∧
        (CallError.badStatus status).isTransport = true) ∧
    (∀ data apiKey raw out, decorateRequestData data apiKey = .ok out →
        MakeAPICall data apiKey (.response 200 (.malformed raw)) =
          .error (.decodeError ("decoding error for " ++ raw)) ∧
        (CallError.decodeError ("decoding error for " ++ raw)).isTransport = true) ∧
    (∀ data apiKey j e out, decorateRequestData data apiKey = .ok out →
        Response.decode j = .error e →
        MakeAPICall data apiKey (.response 200 (.wellFormed j)) =
          .error (.decodeError e)) ∧
    (∀ data apiKey j r out, decorateRequestData data apiKey = .ok out →
        Response.decode j = .ok r → r.stat ≠ "ok" →
        MakeAPICall data apiKey (.response 200 (.wellFormed j)) =
          .error (.apiError r.error)) ∧
    (∀ data apiKey outcome r, MakeAPICall data apiKey outcome = .ok r →
        ∃ j, outcome = .response 200 (.wellFormed j) ∧
          Response.decode j = .ok r ∧ r.stat = "ok") := by
  refine ⟨?_, ?_, ?_, ?_, ?_, ?_⟩
  · intro data apiKey msg out hd
    exact ⟨by simp [MakeAPICall, hd], rfl⟩
  · intro data apiKey status body out hd hst
    have hne : status ≠ 200 := by omega
    exact ⟨by simp [MakeAPICall, hd, hne], rfl⟩
  · intro data apiKey raw out hd
    exact ⟨by simp [MakeAPICall, hd], rfl⟩
  · intro data apiKey j e out hd hdec
    simp [MakeAPICall, hd, hdec]
  · intro data apiKey j r out hd hdec hstat
    simp [MakeAPICall, hd, hdec, hstat]
  · intro data apiKey outcome r h
    cases outcome with
    | failure msg =>
        exfalso
        cases hd : decorateRequestData data apiKey with
        | error e => simp [MakeAPICall, hd] at h
        | ok out => simp [MakeAPICall, hd] at h
    | response status body =>
        by_cases hst : status = 200
        · subst hst
          cases body with
          | malformed raw =>
              exfalso
              cases hd : decorateRequestData data apiKey with
              | error e => simp [MakeAPICall, hd] at h
              | ok out => simp [MakeAPICall, hd] at h
          | wellFormed j =>
              refine ⟨j, rfl, ?_⟩
              cases hd : decorateRequestData data apiKey with
              | error e => simp [MakeAPICall, hd] at h
              | ok out =>
                  cases hdec : Response.decode j with
                  | error e => simp [MakeAPICall, hd, hdec] at h
                  | ok r' =>
                      by_cases hstat : r'.stat = "ok"
                      · have hrr : r' = r := by
                          simp [MakeAPICall, hd, hdec, hstat] at h
                          exact h
                        subst hrr
                        exact ⟨rfl, hstat⟩
                      · exfalso
                        simp [MakeAPICall, hd, hdec, hstat] at h
        · exfalso
          cases hd : decorateRequestData data apiKey with
          | error e => simp [MakeAPICall, hd] at h
          | ok out => simp [MakeAPICall, hd, hst] at h

/-- C6 witness: each classification branch exercised at a concrete input
(empty request data, key `"k"`). -/
theorem makeAPICall_classification_witness :
    MakeAPICall .empty "k" (.failure "timeout") = .error (.transportFailure "timeout") ∧
    MakeAPICall .empty "k" (.response 404 (.malformed "not found")) =
      .error (.badStatus 404) ∧
    MakeAPICall .empty "k" (.response 200 (.malformed "oops")) =
      .error (.decodeError ("decoding error for " ++ "oops")) ∧
    MakeAPICall .empty "k" (.response 200 (.wellFormed (Json.str "x"))) =
      .error (.decodeError "json: cannot unmarshal value into Response") ∧
    MakeAPICall .empty "k" (.response 200 (.wellFormed apiErrorBody)) =
      .error (.apiError apiErrorResponse.error) ∧
    (∃ j, HTTPOutcome.response 200 (.wellFormed emptyMonitorsBody) =
        .response 200 (.wellFormed j) ∧
      Response.decode j = .ok emptyMonitorsResponse ∧
      emptyMonitorsResponse.stat = "ok") :=
  ⟨(makeAPICall_classification.1 .empty "k" "timeout"
      [("api_key", Json.str "k"), ("format", Json.str "json")] rfl).1,
   (makeAPICall_classification.2.1 .empty "k" 404 (.malformed "not found")
      [("api_key", Json.str "k"), ("format", Json.str "json")] rfl
      (Or.inr (by omega))).1,
   (makeAPICall_classification.2.2.1 .empty "k" "oops"
      [("api_key", Json.str "k"), ("format", Json.str "json")] rfl).1,
   makeAPICall_classification.2.2.2.1 .empty "k" (Json.str "x")
      "json: cannot unmarshal value into Response"
      [("api_key", Json.str "k"), ("format", Json.str "json")] rfl rfl,
   makeAPICall_classification.2.2.2.2.1 .empty "k" apiErrorBody apiErrorResponse
      [("api_key", Json.str "k"), ("format", Json.str "json")] rfl rfl (by decide),
   makeAPICall_classification.2.2.2.2.2 .empty "k"
      (.response 200 (.wellFormed emptyMonitorsBody)) emptyMonitorsResponse rfl⟩

/-- C7: `EnsureMonitor` searches by the monitor's URL; a non-empty search
result returns the first match's ID with zero Create calls, an empty
result performs exactly one Create call and returns its ID (or surfaces
its failure), and a failed Search aborts the operation with Create never
attempted. -/
theorem ensureMonitor_spec :
    (∀ apiKey sNet cNet (m : Monitor) first rest,
        searchMonitors apiKey sNet m.url = .ok (first :: rest) →
        ensureMonitor apiKey sNet cNet m = (.ok first.id, 0)) ∧
    (∀ apiKey sNet cNet (m : Monitor) i,
        searchMonitors apiKey sNet m.url = .ok [] →
        createMonitor apiKey cNet m = .ok i →
        ensureMonitor apiKey sNet cNet m = (.ok i, 1)) ∧
    (∀ apiKey sNet cNet (m : Monitor) e,
        searchMonitors apiKey sNet m.url = .ok [] →
        createMonitor apiKey cNet m = .error e →
        ensureMonitor apiKey sNet cNet m = (.error e, 1)) ∧
    (∀ apiKey sNet cNet (m : Monitor) e,
        searchMonitors apiKey sNet m.url = .error e →
        ensureMonitor apiKey sNet cNet m = (.error e, 0)) := by
  refine ⟨?_, ?_, ?_, ?_⟩
  · intro apiKey sNet cNet m first rest hs
    simp [ensureMonitor, hs]
  · intro apiKey sNet cNet m i hs hc
    simp [ensureMonitor, hs, hc]
  · intro apiKey sNet cNet m e hs hc
    simp [ensureMonitor, hs, hc]
  · intro apiKey sNet cNet m e hs
    simp [ensureMonitor, hs]

/-- C7 witness: the Ensure branches at concrete exchanges: a search hit
returns id 42 with zero creates; an empty search plus a successful create
returns id 777810874 with one create; a failed search (HTTP 404) aborts
with zero creates. -/
theorem ensureMonitor_spec_witness :
    ensureMonitor "k" searchHitNet createOkNet ensureMon = (.ok (pageMon 42).id, 0) ∧
    ensureMonitor "k" searchEmptyNet createOkNet ensureMon = (.ok 777810874, 1) ∧
    ensureMonitor "k" (.response 404 (.malformed "nf")) createOkNet ensureMon =
      (.error (.badStatus 404), 0) :=
  ⟨ensureMonitor_spec.1 "k" searchHitNet createOkNet ensureMon (pageMon 42) [] rfl,
   ensureMonitor_spec.2.1 "k" searchEmptyNet createOkNet ensureMon 777810874 rfl rfl,
   ensureMonitor_spec.2.2.2 "k" _ createOkNet ensureMon (.badStatus 404) rfl⟩

/-- C8: `GetMonitor` fails with the locally produced not-found error
exactly when the wire call succeeded and the returned monitor list is
empty; a non-empty list returns its first element; and a wire-call error
is propagated as a call error, never as not-found. -/
theorem getMonitor_notFound_spec :
    (∀ id apiKey outcome,
        getMonitor id apiKey outcome = .error (.notFound id) ↔
          ∃ r, MakeAPICall (RequestData.object [("monitors", Json.str (toString id))])
                 apiKey outcome = .ok r ∧ r.monitors = []) ∧
    (∀ id apiKey outcome r m rest,
        MakeAPICall (RequestData.object [("monitors", Json.str (toString id))])
            apiKey outcome = .ok r →
        r.monitors = m :: rest → getMonitor id apiKey outcome = .ok m) ∧
    (∀ id apiKey outcome e,
        MakeAPICall (RequestData.object [("monitors", Json.str (toString id))])
            apiKey outcome = .error e →
        getMonitor id apiKey outcome = .error (.call e)) := by
  refine ⟨?_, ?_, ?_⟩
  · intro id apiKey outcome
    constructor
    · intro h
      unfold getMonitor at h
      cases hc : MakeAPICall (RequestData.object [("monitors", Json.str (toString id))])
          apiKey outcome with
      | error e => rw [hc] at h; simp at h
      | ok r =>
          rw [hc] at h
          cases hm : r.monitors with
          | nil => exact ⟨r, rfl, hm⟩
          | cons m rest => simp [hm] at h
    · intro ⟨r, hc, hm⟩
      unfold getMonitor
      rw [hc]
      simp [hm]
  · intro id apiKey outcome r m rest hc hm
    unfold getMonitor
    rw [hc]
    simp [hm]
  · intro id apiKey outcome e hc
    unfold getMonitor
    rw [hc]

/-- C8 witness: a successful wire call with an empty list yields the local
not-found error for id 999; a one-element list yields its head; a 404
yields a propagated transport-class error. -/
theorem getMonitor_notFound_spec_witness :
    getMonitor 999 "k" searchEmptyNet = .error (.notFound 999) ∧
    getMonitor 42 "k" searchHitNet = .ok (pageMon 42) ∧
    getMonitor 7 "k" (.response 404 (.malformed "nf")) =
      .error (.call (.badStatus 404)) :=
  ⟨(getMonitor_notFound_spec.1 999 "k" searchEmptyNet).mpr
      ⟨emptyMonitorsResponse, rfl, rfl⟩,
   getMonitor_notFound_spec.2.1 42 "k" searchHitNet _ (pageMon 42) [] rfl rfl,
   getMonitor_notFound_spec.2.2 7 "k" _ (.badStatus 404) rfl⟩

/-- C9: the request envelope adds `api_key` and `format=json` to the
outgoing parameter set and produces a new parameter set: every
caller-supplied key other than those two keeps its original value, and the
caller's data is only read (the embedding is a pure function of it). -/
theorem decorateRequestData_spec :
    (∀ fields apiKey, ∃ out,
        decorateRequestData (.object fields) apiKey = .ok out ∧
        lookupField out "api_key" = some (Json.str apiKey) ∧
        lookupField out "format" = some (Json.str "json") ∧
        ∀ k, k ≠ "api_key" → k ≠ "format" →
          lookupField out k = lookupField fields k) ∧
    (∀ apiKey, decorateRequestData .empty apiKey =
        .ok [("api_key", Json.str apiKey), ("format", Json.str "json")]) := by
  constructor
  · intro fields apiKey
    refine ⟨_, rfl, ?_, lookupField_setField_self _ _ _, ?_⟩
    · rw [lookupField_setField_ne _ _ _ _ (by decide)]
      exact lookupField_setField_self _ _ _
    · intro k hk1 hk2
      rw [lookupField_setField_ne _ _ _ _ (Ne.symm hk2),
          lookupField_setField_ne _ _ _ _ (Ne.symm hk1)]
  · intro apiKey
    rfl

/-- C9 witness: decorating the parameter set `{"search": "q"}` with key
`"k"` yields a set carrying `api_key`, `format` and the untouched
caller-supplied `search` parameter. -/
theorem decorateRequestData_spec_witness :
    ∃ out, decorateRequestData (.object [("search", Json.str "q")]) "k" = .ok out ∧
      lookupField out "api_key" = some (Json.str "k") ∧
      lookupField out "format" = some (Json.str "json") ∧
      lookupField out "search" = some (Json.str "q") := by
  obtain ⟨out, h1, h2, h3, h4⟩ := decorateRequestData_spec.1 [("search", Json.str "q")] "k"
  refine ⟨out, h1, h2, h3, ?_⟩
  rw [h4 "search" (by decide) (by decide)]
  rfl

/-- C10: in the historical Debug-flag variant of `MakeAPICall`, enabling
debug renders the outgoing request and returns success without performing
the network call, so debug mode and real invocation are mutually
exclusive. -/
theorem makeAPICallDebug_shortCircuit :
    (∀ outcome, makeAPICallDebug true outcome =
        { err := none, networkCalled := false, dumpedRequest := true }) ∧
    (∀ debug outcome, (makeAPICallDebug debug outcome).networkCalled = true →
        debug = false) := by
  constructor
  · intro outcome
    rfl
  · intro debug outcome h
    cases debug with
    | false => rfl
    | true => simp [makeAPICallDebug] at h

/-- C10 witness: the short-circuit at a concrete outcome, and the
mutual-exclusion direction applied at an executed call. -/
theorem makeAPICallDebug_shortCircuit_witness :
    makeAPICallDebug true (.failure "down") =
      { err := none, networkCalled := false, dumpedRequest := true } ∧
    (false : Bool) = false :=
  ⟨makeAPICallDebug_shortCircuit.1 (.failure "down"),
   makeAPICallDebug_shortCircuit.2 false (.failure "down") rfl⟩

/-- C1 (divergence): for EVERY listing whose first page reports pagination
metadata offset 0, limit 50, total 100 (the claim's mock: `total=100`
served in pages of 50) and carries no error payload, `AllMonitors`
terminates after that single page: it issues exactly one page request, at
offset 0, and returns only that page's monitors with a nil error — not the
claimed 100 monitors over two requests at offsets 0 and 50.  The loop's
continuation test `offset+limit < total` is already false at
`50+50 < 100`, regardless of fuel. -/
theorem allMonitors_stops_after_first_page (apiKey : String)
    (net : Int → HTTPOutcome) (r : Response) (fuel : Nat)
    (h0 : MakeAPICall (pageRequest 0 50) apiKey (net 0) = .ok r)
    (herr : r.error = (none : Option (List (String × Json))))
    (hpag : r.pagination = { offset := 0, limit := 50, total := 100 }) :
    (allMonitors apiKey net (fuel + 1)).monitors = r.monitors ∧
    (allMonitors apiKey net (fuel + 1)).err = none ∧
    (allMonitors apiKey net (fuel + 1)).requestOffsets = [0] := by
  have hrun : allMonitors apiKey net (fuel + 1) =
      { monitors := [] ++ r.monitors, err := none, requestOffsets := [] ++ [0] } := by
    unfold allMonitors allMonitorsLoop
    rw [h0]
    simp [herr, hpag]
  rw [hrun]
  simp

/-- C1 witness: the divergence theorem at the concrete mock backend whose
pages report total 100 in pages of 50: one request, offset 0 only. -/
theorem allMonitors_stops_after_first_page_witness :
    (allMonitors "k" c1Net 5).monitors = (pageResponse 1 2 0 100).monitors ∧
    (allMonitors "k" c1Net 5).err = none ∧
    (allMonitors "k" c1Net 5).requestOffsets = [0] :=
  allMonitors_stops_after_first_page "k" c1Net (pageResponse 1 2 0 100) 4 rfl rfl rfl

/-- C2 (divergence): when the first page reports total `t > 100` (so a
second page request is issued at offset 50) and that second request fails,
`AllMonitors` returns the first page's monitors together with a NIL error:
the statement `if err := c.MakeAPICall(...); err != nil { break }` declares
a fresh `err` that shadows the named result, so the failure is dropped and
the claimed non-nil error never materializes. -/
theorem allMonitors_nil_error_on_page_failure (apiKey : String)
    (net : Int → HTTPOutcome) (r : Response) (e : CallError) (t : Int) (fuel : Nat)
    (h0 : MakeAPICall (pageRequest 0 50) apiKey (net 0) = .ok r)
    (herr : r.error = (none : Option (List (String × Json))))
    (hpag : r.pagination = { offset := 0, limit := 50, total := t })
    (ht : 100 < t)
    (h1 : MakeAPICall (pageRequest 50 50) apiKey (net 50) = .error e) :
    (allMonitors apiKey net (fuel + 2)).monitors = r.monitors ∧
    (allMonitors apiKey net (fuel + 2)).err = none ∧
    (allMonitors apiKey net (fuel + 2)).requestOffsets = [0, 50] := by
  have hrun : allMonitors apiKey net (fuel + 2) =
      { monitors := [] ++ r.monitors, err := none,
        requestOffsets := ([] ++ [0]) ++ [50] } := by
    unfold allMonitors allMonitorsLoop
    rw [h0]
    simp only [herr, hpag]
    rw [if_pos (by omega)]
    unfold allMonitorsLoop
    norm_num
    rw [h1]
  rw [hrun]
  simp

/-- C2 witness: the divergence theorem at the concrete mock backend whose
first page reports total 150 and whose second page request fails at the
transport level: the error result is nil. -/
theorem allMonitors_nil_error_on_page_failure_witness :
    (allMonitors "k" c2Net 5).monitors = (pageResponse 1 2 0 150).monitors ∧
    (allMonitors "k" c2Net 5).err = none ∧
    (allMonitors "k" c2Net 5).requestOffsets = [0, 50] :=
  allMonitors_nil_error_on_page_failure "k" c2Net (pageResponse 1 2 0 150)
    (.transportFailure "connection refused") 150 3 rfl rfl rfl (by omega) rfl

end UptimeRobot
